import Mathlib

/-!
# Verification of the workflow-matcher core

A shallow embedding of `.windsurf/workflows/scripts/workflow_matcher.py`
(the signal-flattening and confidence-scoring pipeline) together with the
parts of `dependency_analyzer.py` / `structure_analyzer.py` that shape its
inputs, and proofs of the specified properties.

Conventions of the embedding:
* Python `str` becomes `String`; `str.lower()` becomes `lowerStr` (defined on
  the character list so it is kernel-computable; `Char.toLower` is the ASCII
  lowering, exactly as in Python for the ASCII data this program handles).
* Python `float` weights become `ℚ` with the literal values `9/10`, `7/10`,
  `5/10`, `3/10`; all arithmetic in the scorer is exact at these values.
* `len(set(a) & set(b))` becomes `matchCount`: the number of distinct
  elements of `a` that occur in `b`.
* The stable Python `list.sort(key=..., reverse=True)` becomes the stable
  descending insertion sort `sortByConfidence`.
-/

/-- Python `str.lower()` restricted to the ASCII lowering `Char.toLower`,
defined by mapping over the character list so that it evaluates in the
kernel. -/
def lowerStr (s : String) : String := ⟨s.data.map Char.toLower⟩

/-- Lowering an already-lowered character is the identity: an ASCII
upper-case character maps into `[97,122]`, which the guard of
`Char.toLower` rejects. -/
theorem charToLower_idem (c : Char) : c.toLower.toLower = c.toLower := by
  have key : ∀ d : Char, ¬(d.toNat ≥ 65 ∧ d.toNat ≤ 90) → d.toLower = d := by
    intro d hd
    simp [Char.toLower, hd]
  by_cases h : c.toNat ≥ 65 ∧ c.toNat ≤ 90
  · have hv : (c.toNat + 32).isValidChar := Or.inl (by omega)
    have ht : (Char.ofNat (c.toNat + 32)).toNat = c.toNat + 32 := by
      simp only [Char.ofNat, Char.toNat, UInt32.toNat] at hv ⊢
      rw [dif_pos hv]
      simp [Char.ofNatAux, UInt32.ofNat', BitVec.ofNatLt]
    have h1 : c.toLower = Char.ofNat (c.toNat + 32) := by simp [Char.toLower, h]
    rw [h1, key _ (by rw [ht]; omega)]
  · rw [key c h, key c h]

/-- Idempotence of `lowerStr`. -/
theorem lowerStr_idem (s : String) : lowerStr (lowerStr s) = lowerStr s := by
  have hc : Char.toLower ∘ Char.toLower = Char.toLower := funext charToLower_idem
  simp [lowerStr, List.map_map, hc]

/-- The `DependencyInfo` dataclass of `dependency_analyzer.py`: every field
is always present (`type` and `category` default to `"unknown"`). -/
structure DependencyInfo where
  name : String
  version : Option String
  type : String
  category : String
deriving DecidableEq

/-- The `patterns` dictionary produced by `structure_analyzer.py`
(`_analyze_patterns`): `architecture` (default `"unknown"`, or `""` when the
key is absent altogether), plus three label lists. -/
structure StructurePatterns where
  architecture : String
  frameworks : List String
  project_types : List String
  key_patterns : List String
deriving DecidableEq

/-- The three trigger tiers of a workflow template. -/
structure Triggers where
  strong : List String
  medium : List String
  weak : List String
deriving DecidableEq

/-- A workflow template, one entry of the static catalog in
`WorkflowMatcher._load_workflow_templates`. -/
structure WorkflowTemplate where
  category : String
  estimated_time : String
  prerequisites : List String
  triggers : Triggers
  description : String
deriving DecidableEq

/-- Output record, `WorkflowSuggestion` dataclass (`triggers` is the
`matching_triggers` list built in `_calculate_workflow_confidence`). -/
structure WorkflowSuggestion where
  name : String
  confidence : ℚ
  reasoning : String
  category : String
  estimated_time : String
  prerequisites : List String
  triggers : List String
deriving DecidableEq

/-! ## The static workflow catalog (`_load_workflow_templates`) -/

def componentLibrary : WorkflowTemplate :=
  { category := "frontend", estimated_time := "15-30 minutes"
    prerequisites := ["React/Vue/Angular", "components folder"]
    triggers :=
      { strong := ["react", "vue", "angular", "components/"]
        medium := ["jsx", "tsx", "vue", "svelte"]
        weak := ["src/", "lib/"] }
    description := "Create comprehensive component library with documentation and testing" }

def storybookSetup : WorkflowTemplate :=
  { category := "frontend", estimated_time := "10-20 minutes"
    prerequisites := ["Component library", "React/Vue/Angular"]
    triggers :=
      { strong := ["components/", "storybook"]
        medium := ["react", "vue", "angular"]
        weak := ["ui components", "design system"] }
    description := "Set up Storybook for component development and documentation" }

def frontendTesting : WorkflowTemplate :=
  { category := "testing", estimated_time := "20-40 minutes"
    prerequisites := ["Frontend framework", "Test files"]
    triggers :=
      { strong := ["jest", "vitest", "cypress", "playwright"]
        medium := ["tests/", "__tests__", "spec/"]
        weak := ["test", "spec"] }
    description := "Set up comprehensive frontend testing suite" }

def apiDocumentation : WorkflowTemplate :=
  { category := "backend", estimated_time := "20-45 minutes"
    prerequisites := ["API framework", "Route definitions"]
    triggers :=
      { strong := ["express", "fastapi", "django", "api/", "routes/"]
        medium := ["rest", "graphql", "api"]
        weak := ["server", "backend"] }
    description := "Generate comprehensive API documentation with OpenAPI/Swagger" }

def databaseSchema : WorkflowTemplate :=
  { category := "database", estimated_time := "30-60 minutes"
    prerequisites := ["Database ORM", "Model definitions"]
    triggers :=
      { strong := ["prisma", "typeorm", "sqlalchemy", "models/", "schemas/"]
        medium := ["database", "orm", "models"]
        weak := ["data", "storage"] }
    description := "Analyze and document database schema with relationships" }

def databaseMigration : WorkflowTemplate :=
  { category := "database", estimated_time := "15-30 minutes"
    prerequisites := ["Database setup", "Migration files"]
    triggers :=
      { strong := ["migrations/", "seeds/", "prisma"]
        medium := ["database", "sql", "schema"]
        weak := ["data", "storage"] }
    description := "Set up database migration and seeding workflow" }

def fullStackDocumentation : WorkflowTemplate :=
  { category := "documentation", estimated_time := "45-90 minutes"
    prerequisites := ["Frontend + Backend", "API endpoints"]
    triggers :=
      { strong := ["react", "express", "api/", "components/"]
        medium := ["frontend", "backend", "full-stack"]
        weak := ["web", "application"] }
    description := "Create comprehensive documentation for full-stack application" }

def testCoverage : WorkflowTemplate :=
  { category := "testing", estimated_time := "25-45 minutes"
    prerequisites := ["Test framework", "Source code"]
    triggers :=
      { strong := ["jest", "vitest", "pytest", "coverage"]
        medium := ["tests/", "__tests__", "testing"]
        weak := ["test", "spec"] }
    description := "Set up test coverage reporting and improve test coverage" }

def apiTesting : WorkflowTemplate :=
  { category := "testing", estimated_time := "20-35 minutes"
    prerequisites := ["API endpoints", "Testing framework"]
    triggers :=
      { strong := ["express", "fastapi", "cypress", "playwright"]
        medium := ["api/", "routes/", "testing"]
        weak := ["api", "test"] }
    description := "Set up comprehensive API testing suite" }

def documentationGeneration : WorkflowTemplate :=
  { category := "documentation", estimated_time := "30-60 minutes"
    prerequisites := ["Source code", "README files"]
    triggers :=
      { strong := ["readme.md", "docs/", "documentation"]
        medium := [".md files", "comments", "docstrings"]
        weak := ["docs", "documentation"] }
    description := "Generate comprehensive documentation from source code and existing docs" }

def knowledgeBase : WorkflowTemplate :=
  { category := "documentation", estimated_time := "45-75 minutes"
    prerequisites := ["Documentation files", "Project structure"]
    triggers :=
      { strong := ["docs/", "documentation", "readme.md"]
        medium := [".md files", "wiki", "knowledge"]
        weak := ["docs", "information"] }
    description := "Create searchable knowledge base from project documentation" }

def deploymentPipeline : WorkflowTemplate :=
  { category := "deployment", estimated_time := "30-60 minutes"
    prerequisites := ["Project structure", "CI/CD setup"]
    triggers :=
      { strong := [".github/", "dockerfile", "ci-cd"]
        medium := ["deploy", "pipeline", "automation"]
        weak := ["production", "release"] }
    description := "Set up automated deployment pipeline with CI/CD" }

def dockerSetup : WorkflowTemplate :=
  { category := "deployment", estimated_time := "15-30 minutes"
    prerequisites := ["Application code", "Configuration"]
    triggers :=
      { strong := ["dockerfile", "docker-compose"]
        medium := ["container", "deployment"]
        weak := ["docker", "containerization"] }
    description := "Set up Docker containerization for application" }

def codeQuality : WorkflowTemplate :=
  { category := "development", estimated_time := "20-40 minutes"
    prerequisites := ["Source code", "Linting tools"]
    triggers :=
      { strong := ["eslint", "prettier", "linting"]
        medium := ["code quality", "formatting"]
        weak := ["code", "quality"] }
    description := "Set up code quality tools and formatting standards" }

def performanceOptimization : WorkflowTemplate :=
  { category := "development", estimated_time := "30-60 minutes"
    prerequisites := ["Application code", "Performance issues"]
    triggers :=
      { strong := ["performance", "optimization", "speed"]
        medium := ["slow", "lag", "optimization"]
        weak := ["performance", "improvement"] }
    description := "Analyze and optimize application performance" }

/-- The catalog returned by `_load_workflow_templates`, as the (ordered)
list of `(name, template)` pairs in Python dict insertion order. -/
def workflowTemplates : List (String × WorkflowTemplate) :=
  [("component-library", componentLibrary),
   ("storybook-setup", storybookSetup),
   ("frontend-testing", frontendTesting),
   ("api-documentation", apiDocumentation),
   ("database-schema", databaseSchema),
   ("database-migration", databaseMigration),
   ("full-stack-documentation", fullStackDocumentation),
   ("test-coverage", testCoverage),
   ("api-testing", apiTesting),
   ("documentation-generation", documentationGeneration),
   ("knowledge-base", knowledgeBase),
   ("deployment-pipeline", deploymentPipeline),
   ("docker-setup", dockerSetup),
   ("code-quality", codeQuality),
   ("performance-optimization", performanceOptimization)]

/-! ## Scorer weights (`self.confidence_weights` in `__init__`) -/

def strongSignalWeight : ℚ := 9/10

def mediumSignalWeight : ℚ := 7/10

def weakSignalWeight : ℚ := 5/10

/-- The minimum confidence threshold used in `match_workflows`
(`if suggestion.confidence >= 0.3`). -/
def suggestionThreshold : ℚ := 3/10

/-! ## Signal flattener (`_extract_detected_items`) -/

/-- Embedding of `WorkflowMatcher._extract_detected_items`: each dependency
contributes `dep.name.lower()` and `dep.category.lower()` (the
`hasattr` guard on `category` in the source is always true, `category`
being a dataclass field with default `"unknown"`); then the three pattern
label lists; then the
architecture when it is truthy (non-empty) and not `"unknown"`; finally
everything is lowered once more by the closing list comprehension. -/
def extractDetectedItems (dependencies : List DependencyInfo)
    (patterns : StructurePatterns) : List String :=
  let detectedItems :=
    dependencies.flatMap (fun dep => [lowerStr dep.name, lowerStr dep.category])
    ++ patterns.frameworks ++ patterns.project_types ++ patterns.key_patterns
    ++ (if patterns.architecture ≠ "" ∧ patterns.architecture ≠ "unknown" then
          [patterns.architecture] else [])
  detectedItems.map lowerStr

/-! ## Confidence scorer (`_calculate_workflow_confidence`) -/

/-- The Python value `len(set(triggerList) & set(detected))`: the number of
distinct strings of `triggerList` that occur (verbatim) in `detected`. -/
def matchCount (triggerList detected : List String) : Nat :=
  (triggerList.dedup.filter (fun t => decide (t ∈ detected))).length

/-- The weighted sum
`strong_matches*0.9 + medium_matches*0.7 + weak_matches*0.5` computed in
`_calculate_workflow_confidence` before the cap. -/
def rawConfidence (t : WorkflowTemplate) (detected : List String) : ℚ :=
  (matchCount t.triggers.strong detected : ℚ) * strongSignalWeight
  + (matchCount t.triggers.medium detected : ℚ) * mediumSignalWeight
  + (matchCount t.triggers.weak detected : ℚ) * weakSignalWeight

/-- Embedding of `WorkflowMatcher._generate_reasoning`.  Note the guards
use the verbatim match counts while the listed items are selected by
`item.lower() in detected_items`, exactly as in the source. -/
def generateReasoning (tr : Triggers) (detected : List String) : String :=
  let reasoningParts : List String :=
    (if matchCount tr.strong detected > 0 then
      ["Strong indicators: " ++
        String.intercalate ", " (tr.strong.filter (fun i => decide (lowerStr i ∈ detected)))]
     else [])
    ++ (if matchCount tr.medium detected > 0 then
      ["Supporting indicators: " ++
        String.intercalate ", " (tr.medium.filter (fun i => decide (lowerStr i ∈ detected)))]
     else [])
    ++ (if matchCount tr.weak detected > 0 then
      ["Additional indicators: " ++
        String.intercalate ", " (tr.weak.filter (fun i => decide (lowerStr i ∈ detected)))]
     else [])
  if reasoningParts = [] then "General recommendation based on project structure"
  else String.intercalate " | " reasoningParts

/-- The `matching_triggers` loop of `_calculate_workflow_confidence`: per
tier in strong→medium→weak order, every declared trigger whose lowering
occurs in the signal list, in declaration order. -/
def matchingTriggers (tr : Triggers) (detected : List String) : List String :=
  tr.strong.filter (fun t => decide (lowerStr t ∈ detected))
  ++ tr.medium.filter (fun t => decide (lowerStr t ∈ detected))
  ++ tr.weak.filter (fun t => decide (lowerStr t ∈ detected))

/-- Embedding of `WorkflowMatcher._calculate_workflow_confidence`: weighted
matches, capped at 1.0, with reasoning and matched triggers. -/
def calculateWorkflowConfidence (workflowName : String) (t : WorkflowTemplate)
    (detected : List String) : WorkflowSuggestion :=
  { name := workflowName
    confidence := min (rawConfidence t detected) 1
    reasoning := generateReasoning t.triggers detected
    category := t.category
    estimated_time := t.estimated_time
    prerequisites := t.prerequisites
    triggers := matchingTriggers t.triggers detected }

/-! ## Ranking (`match_workflows`) -/

/-- The suggestion list built by the loop in `match_workflows` before
sorting: one suggestion per catalog entry in catalog order, kept when its
confidence reaches the 0.3 threshold. -/
def candidateSuggestions (detected : List String) : List WorkflowSuggestion :=
  (workflowTemplates.map (fun p => calculateWorkflowConfidence p.1 p.2 detected)).filter
    (fun s => decide (suggestionThreshold ≤ s.confidence))

/-- Stable insertion step of the descending-by-confidence sort: `x` moves
past exactly the elements of strictly larger confidence, so an element
inserted later never jumps an equal-confidence element inserted earlier. -/
def insertByConfidence (x : WorkflowSuggestion) :
    List WorkflowSuggestion → List WorkflowSuggestion
  | [] => [x]
  | y :: ys =>
    if x.confidence < y.confidence then y :: insertByConfidence x ys
    else x :: y :: ys

/-- The stable Python `suggestions.sort(key=lambda x: x.confidence,
reverse=True)`, modelled as a stable insertion sort (any stable
descending sort has the same observable behaviour). -/
def sortByConfidence : List WorkflowSuggestion → List WorkflowSuggestion
  | [] => []
  | x :: xs => insertByConfidence x (sortByConfidence xs)

/-- Embedding of `WorkflowMatcher.match_workflows` after the
signal-flattening step: the
thresholded catalog scan followed by the stable descending sort.  (In the
source the flattening of the raw analysis results into `detected_items`
happens first; it is `extractDetectedItems` above, so the full method is
`matchWorkflows (extractDetectedItems deps patterns)`.) -/
def matchWorkflows (detected : List String) : List WorkflowSuggestion :=
  sortByConfidence (candidateSuggestions detected)

/-! ## Basic lemmas about the scorer -/

theorem matchCount_mono {A d d' : List String} (h : ∀ x, x ∈ d → x ∈ d') :
    matchCount A d ≤ matchCount A d' := by
  unfold matchCount
  refine List.Sublist.length_le (List.monotone_filter_right _ ?_)
  intro a ha
  simp only [decide_eq_true_eq] at ha ⊢
  exact h a ha

theorem matchCount_pos_iff {A d : List String} :
    0 < matchCount A d ↔ ∃ a ∈ A, a ∈ d := by
  unfold matchCount
  rw [List.length_pos_iff_exists_mem]
  constructor
  · rintro ⟨a, ha⟩
    have := List.mem_filter.mp ha
    exact ⟨a, List.mem_dedup.mp this.1, by simpa using this.2⟩
  · rintro ⟨a, ha, had⟩
    exact ⟨a, List.mem_filter.mpr ⟨List.mem_dedup.mpr ha, by simpa using had⟩⟩

theorem rawConfidence_nonneg (t : WorkflowTemplate) (d : List String) :
    0 ≤ rawConfidence t d := by
  unfold rawConfidence strongSignalWeight mediumSignalWeight weakSignalWeight
  positivity

/-- If any tier has a match, the raw confidence is at least the smallest
weight `0.5`. -/
theorem half_le_rawConfidence (t : WorkflowTemplate) (d : List String)
    (h : 0 < matchCount t.triggers.strong d ∨ 0 < matchCount t.triggers.medium d ∨
      0 < matchCount t.triggers.weak d) :
    1/2 ≤ rawConfidence t d := by
  unfold rawConfidence strongSignalWeight mediumSignalWeight weakSignalWeight
  have hcs := Nat.cast_nonneg (α := ℚ) (matchCount t.triggers.strong d)
  have hcm := Nat.cast_nonneg (α := ℚ) (matchCount t.triggers.medium d)
  have hcw := Nat.cast_nonneg (α := ℚ) (matchCount t.triggers.weak d)
  rcases h with h | h | h
  · have h1 : (1 : ℚ) ≤ (matchCount t.triggers.strong d : ℚ) := by exact_mod_cast h
    nlinarith
  · have h1 : (1 : ℚ) ≤ (matchCount t.triggers.medium d : ℚ) := by exact_mod_cast h
    nlinarith
  · have h1 : (1 : ℚ) ≤ (matchCount t.triggers.weak d : ℚ) := by exact_mod_cast h
    nlinarith

/-- If no tier has a match, the raw confidence is `0`. -/
theorem rawConfidence_eq_zero (t : WorkflowTemplate) (d : List String)
    (hs : matchCount t.triggers.strong d = 0) (hm : matchCount t.triggers.medium d = 0)
    (hw : matchCount t.triggers.weak d = 0) :
    rawConfidence t d = 0 := by
  unfold rawConfidence
  rw [hs, hm, hw]
  norm_num

/-- The confidence the scorer assigns is exactly the capped raw weighted
sum. -/
theorem confidence_eq (n : String) (t : WorkflowTemplate) (d : List String) :
    (calculateWorkflowConfidence n t d).confidence = min (rawConfidence t d) 1 := rfl

/-- C3: for every template (arbitrary, in particular every catalog
template), every name and every signal list, the computed confidence lies in
the closed interval `[0, 1]`. -/
theorem confidence_mem_unit_interval (t : WorkflowTemplate) (n : String)
    (detected : List String) :
    0 ≤ (calculateWorkflowConfidence n t detected).confidence ∧
      (calculateWorkflowConfidence n t detected).confidence ≤ 1 := by
  rw [confidence_eq]
  exact ⟨le_min (rawConfidence_nonneg t detected) zero_le_one, min_le_right _ _⟩

/-- C4: adding a token to the signal list never lowers the confidence of
any template. -/
theorem confidence_monotone (t : WorkflowTemplate) (n : String)
    (detected : List String) (tok : String) :
    (calculateWorkflowConfidence n t detected).confidence ≤
      (calculateWorkflowConfidence n t (tok :: detected)).confidence := by
  rw [confidence_eq, confidence_eq]
  refine min_le_min ?_ le_rfl
  unfold rawConfidence
  have hsub : ∀ x, x ∈ detected → x ∈ tok :: detected := fun x hx => List.mem_cons_of_mem tok hx
  have hw0 : (0 : ℚ) ≤ strongSignalWeight := by norm_num [strongSignalWeight]
  have hw1 : (0 : ℚ) ≤ mediumSignalWeight := by norm_num [mediumSignalWeight]
  have hw2 : (0 : ℚ) ≤ weakSignalWeight := by norm_num [weakSignalWeight]
  gcongr <;> exact_mod_cast matchCount_mono hsub

/-! ## Lemmas about the stable descending sort -/

theorem insertByConfidence_perm (x : WorkflowSuggestion) (l : List WorkflowSuggestion) :
    List.Perm (insertByConfidence x l) (x :: l) := by
  induction l with
  | nil => exact List.Perm.refl _
  | cons y ys ih =>
    unfold insertByConfidence
    split
    · exact (ih.cons y).trans (List.Perm.swap x y ys)
    · exact List.Perm.refl _

theorem sortByConfidence_perm (l : List WorkflowSuggestion) :
    List.Perm (sortByConfidence l) l := by
  induction l with
  | nil => exact List.Perm.refl _
  | cons x xs ih => exact (insertByConfidence_perm x (sortByConfidence xs)).trans (ih.cons x)

theorem insertByConfidence_pairwise (x : WorkflowSuggestion)
    (l : List WorkflowSuggestion)
    (h : l.Pairwise (fun a b => b.confidence ≤ a.confidence)) :
    (insertByConfidence x l).Pairwise (fun a b => b.confidence ≤ a.confidence) := by
  induction l with
  | nil => simp [insertByConfidence]
  | cons y ys ih =>
    unfold insertByConfidence
    rw [List.pairwise_cons] at h
    split
    · rename_i hlt
      refine List.pairwise_cons.mpr ⟨?_, ih h.2⟩
      intro z hz
      rcases List.mem_cons.mp ((insertByConfidence_perm x ys).mem_iff.mp hz) with hz | hz
      · rw [hz]; exact le_of_lt hlt
      · exact h.1 z hz
    · rename_i hge
      push_neg at hge
      refine List.pairwise_cons.mpr ⟨?_, List.pairwise_cons.mpr h⟩
      intro z hz
      rcases List.mem_cons.mp hz with hz | hz
      · rw [hz]; exact hge
      · exact le_trans (h.1 z hz) hge

theorem sortByConfidence_pairwise (l : List WorkflowSuggestion) :
    (sortByConfidence l).Pairwise (fun a b => b.confidence ≤ a.confidence) := by
  induction l with
  | nil => simp [sortByConfidence]
  | cons x xs ih => exact insertByConfidence_pairwise x _ ih

/-- Stability of the insertion step: for every confidence value `c`, the
`c`-confidence elements of `insertByConfidence x l` are those of `l`, with
`x` placed in front when it has confidence `c`. -/
theorem filter_insertByConfidence (x : WorkflowSuggestion)
    (l : List WorkflowSuggestion) (c : ℚ) :
    (insertByConfidence x l).filter (fun s => decide (s.confidence = c)) =
      (if x.confidence = c then [x] else [])
        ++ l.filter (fun s => decide (s.confidence = c)) := by
  induction l with
  | nil => by_cases hx : x.confidence = c <;> simp [insertByConfidence, List.filter_cons, hx]
  | cons y ys ih =>
    unfold insertByConfidence
    split
    · rename_i hlt
      by_cases hx : x.confidence = c
      · have hy : ¬ y.confidence = c := by
          intro hy
          rw [hx] at hlt
          rw [hy] at hlt
          exact lt_irrefl c hlt
        simp [List.filter_cons, hx, hy, ih]
      · simp [List.filter_cons, hx, ih]
    · by_cases hx : x.confidence = c <;> simp [List.filter_cons, hx]

/-- Stability of the sort: it permutes only across distinct confidence
values, fixing each equal-confidence class pointwise. -/
theorem filter_sortByConfidence (l : List WorkflowSuggestion) (c : ℚ) :
    (sortByConfidence l).filter (fun s => decide (s.confidence = c)) =
      l.filter (fun s => decide (s.confidence = c)) := by
  induction l with
  | nil => rfl
  | cons x xs ih =>
    show (insertByConfidence x (sortByConfidence xs)).filter _ = _
    rw [filter_insertByConfidence, ih]
    by_cases hx : x.confidence = c <;> simp [List.filter_cons, hx]

/-! ## Uniqueness of catalog keys -/

/-- In a pair list whose first components are `Nodup`, a key determines its
value. -/
theorem eq_of_mem_of_nodup_keys {α β : Type} {l : List (α × β)}
    (hnd : (l.map Prod.fst).Nodup) {n : α} {t t' : β}
    (h1 : (n, t) ∈ l) (h2 : (n, t') ∈ l) : t = t' := by
  induction l with
  | nil => cases h1
  | cons p ps ih =>
    rw [List.map_cons, List.nodup_cons] at hnd
    rcases List.mem_cons.mp h1 with h1 | h1 <;> rcases List.mem_cons.mp h2 with h2 | h2
    · exact congrArg Prod.snd (h1.trans h2.symm)
    · exfalso
      apply hnd.1
      rw [show p.1 = n from congrArg Prod.fst h1.symm]
      exact List.mem_map.mpr ⟨(n, t'), h2, rfl⟩
    · exfalso
      apply hnd.1
      rw [show p.1 = n from congrArg Prod.fst h2.symm]
      exact List.mem_map.mpr ⟨(n, t), h1, rfl⟩
    · exact ih hnd.2 h1 h2

/-- The 15 catalog names are pairwise distinct. -/
theorem workflowTemplates_keys_nodup : (workflowTemplates.map Prod.fst).Nodup := by
  decide

/-- C2: a catalog template contributes a suggestion to the output of
`matchWorkflows` (identified by its unique name) exactly when its computed
confidence reaches the `0.3` suggestion floor; below the floor nothing is
emitted for it. -/
theorem mem_matchWorkflows_iff_threshold (detected : List String)
    (n : String) (t : WorkflowTemplate) (hmem : (n, t) ∈ workflowTemplates) :
    (∃ s ∈ matchWorkflows detected, s.name = n) ↔
      suggestionThreshold ≤ (calculateWorkflowConfidence n t detected).confidence := by
  constructor
  · rintro ⟨s, hs, hname⟩
    have hs' : s ∈ candidateSuggestions detected :=
      (sortByConfidence_perm _).mem_iff.mp hs
    obtain ⟨hsmap, hthr⟩ := List.mem_filter.mp hs'
    obtain ⟨p, hp, hps⟩ := List.mem_map.mp hsmap
    have hp1 : p.1 = n := by rw [← hname, ← hps]; rfl
    have hp2 : p.2 = t := by
      refine eq_of_mem_of_nodup_keys workflowTemplates_keys_nodup ?_ hmem
      rw [← hp1]
      exact hp
    rw [← hp1, ← hp2, hps]
    exact of_decide_eq_true hthr
  · intro hthr
    refine ⟨calculateWorkflowConfidence n t detected, ?_, rfl⟩
    apply (sortByConfidence_perm _).mem_iff.mpr
    exact List.mem_filter.mpr
      ⟨List.mem_map.mpr ⟨(n, t), hmem, rfl⟩, decide_eq_true hthr⟩

/-- Witness for C2: on the signal list `["react"]` the catalog template
`component-library` reaches the floor and is emitted. -/
theorem mem_matchWorkflows_iff_threshold_witness :
    ("component-library", componentLibrary) ∈ workflowTemplates ∧
      ((∃ s ∈ matchWorkflows ["react"], s.name = "component-library") ↔
        suggestionThreshold ≤
          (calculateWorkflowConfidence "component-library" componentLibrary
            ["react"]).confidence) :=
  ⟨by decide,
    mem_matchWorkflows_iff_threshold ["react"] "component-library" componentLibrary
      (by decide)⟩

/-- C6: the emitted suggestion list is sorted by non-increasing
confidence, and the sort is stable: for every confidence value `c`, the
emitted suggestions of confidence `c` appear exactly as in the unsorted
candidate list, which is in catalog declaration order. -/
theorem matchWorkflows_sorted_stable (detected : List String) :
    (matchWorkflows detected).Pairwise (fun a b => b.confidence ≤ a.confidence) ∧
      ∀ c : ℚ,
        (matchWorkflows detected).filter (fun s => decide (s.confidence = c)) =
          (candidateSuggestions detected).filter (fun s => decide (s.confidence = c)) :=
  ⟨sortByConfidence_pairwise _, fun c => filter_sortByConfidence _ c⟩

/-! ## C1: the scorer computes the claimed weighted-intersection formula -/

/-- The matching notion of claim C1, following the wording of the spec: the
number of distinct declared triggers of a tier that equal, under
case-insensitive string equality, some member of the signal set. -/
def ciMatchCount (triggerList signals : List String) : Nat :=
  (triggerList.dedup.filter
    (fun tr => decide (∃ s ∈ signals, lowerStr s = lowerStr tr))).length

/-- Every trigger declared in the catalog is already lower-case. -/
theorem workflowTriggers_lower :
    ∀ p ∈ workflowTemplates,
      ∀ x ∈ p.2.triggers.strong ++ p.2.triggers.medium ++ p.2.triggers.weak,
        lowerStr x = x := by decide

/-- On lower-case triggers and lower-case signals, the verbatim set
intersection used by the code agrees with the case-insensitive count of the
claim. -/
theorem matchCount_eq_ciMatchCount {A d : List String}
    (hA : ∀ x ∈ A, lowerStr x = x) (hd : ∀ s ∈ d, lowerStr s = s) :
    matchCount A d = ciMatchCount A d := by
  unfold matchCount ciMatchCount
  congr 1
  refine List.filter_congr ?_
  intro a ha
  have hal : lowerStr a = a := hA a (List.mem_dedup.mp ha)
  rw [decide_eq_decide]
  constructor
  · intro h
    exact ⟨a, h, rfl⟩
  · rintro ⟨s, hs, he⟩
    have hsa : s = a := by rw [← hd s hs, he, hal]
    rwa [← hsa]

/-- C1: for every catalog template and every flattened (lower-case)
signal list, the confidence computed by the scorer equals
`min(strong*0.9 + medium*0.7 + weak*0.5, 1)` where each count is the size
of the case-insensitive exact-equality intersection of the trigger list of
the tier with the signal set. -/
theorem confidence_eq_ci_formula (detected : List String) (n : String)
    (t : WorkflowTemplate) (hmem : (n, t) ∈ workflowTemplates)
    (hlow : ∀ s ∈ detected, lowerStr s = s) :
    (calculateWorkflowConfidence n t detected).confidence =
      min ((ciMatchCount t.triggers.strong detected : ℚ) * (9/10)
        + (ciMatchCount t.triggers.medium detected : ℚ) * (7/10)
        + (ciMatchCount t.triggers.weak detected : ℚ) * (5/10)) 1 := by
  have hall := workflowTriggers_lower (n, t) hmem
  have hs : ∀ x ∈ t.triggers.strong, lowerStr x = x := fun x hx => hall x (by simp [hx])
  have hm : ∀ x ∈ t.triggers.medium, lowerStr x = x := fun x hx => hall x (by simp [hx])
  have hw : ∀ x ∈ t.triggers.weak, lowerStr x = x := fun x hx => hall x (by simp [hx])
  rw [confidence_eq]
  unfold rawConfidence
  rw [matchCount_eq_ciMatchCount hs hlow, matchCount_eq_ciMatchCount hm hlow,
    matchCount_eq_ciMatchCount hw hlow]
  rfl

/-- Witness for C1 at the concrete lower-case signal list `["react"]` and
the `component-library` template. -/
theorem confidence_eq_ci_formula_witness :
    (("component-library", componentLibrary) ∈ workflowTemplates ∧
      ∀ s ∈ ["react"], lowerStr s = s) ∧
    (calculateWorkflowConfidence "component-library" componentLibrary
        ["react"]).confidence =
      min ((ciMatchCount componentLibrary.triggers.strong ["react"] : ℚ) * (9/10)
        + (ciMatchCount componentLibrary.triggers.medium ["react"] : ℚ) * (7/10)
        + (ciMatchCount componentLibrary.triggers.weak ["react"] : ℚ) * (5/10)) 1 :=
  ⟨⟨by decide, by decide⟩,
    confidence_eq_ci_formula ["react"] "component-library" componentLibrary
      (by decide) (by decide)⟩

/-! ## C10: the floor coincides with having a matching trigger -/

/-- Reaching the `0.3` floor is the same as having at least one tier with a
match. -/
theorem threshold_iff_pos_match (n : String) (t : WorkflowTemplate)
    (d : List String) :
    suggestionThreshold ≤ (calculateWorkflowConfidence n t d).confidence ↔
      (0 < matchCount t.triggers.strong d ∨ 0 < matchCount t.triggers.medium d ∨
        0 < matchCount t.triggers.weak d) := by
  rw [confidence_eq]
  constructor
  · intro h
    by_contra hc
    push_neg at hc
    obtain ⟨h1, h2, h3⟩ := hc
    rw [rawConfidence_eq_zero t d (Nat.eq_zero_of_not_pos (by omega))
      (Nat.eq_zero_of_not_pos (by omega)) (Nat.eq_zero_of_not_pos (by omega))] at h
    norm_num [suggestionThreshold] at h
  · intro h
    have h2 : (1 : ℚ)/2 ≤ min (rawConfidence t d) 1 :=
      le_min (half_le_rawConfidence t d h) (by norm_num)
    calc suggestionThreshold ≤ 1/2 := by norm_num [suggestionThreshold]
      _ ≤ _ := h2

/-- Any suggestion at or above the floor in fact has confidence at least
`0.5`. -/
theorem half_le_confidence_of_threshold (n : String) (t : WorkflowTemplate)
    (d : List String)
    (h : suggestionThreshold ≤ (calculateWorkflowConfidence n t d).confidence) :
    1/2 ≤ (calculateWorkflowConfidence n t d).confidence := by
  have hpos := (threshold_iff_pos_match n t d).mp h
  rw [confidence_eq]
  exact le_min (half_le_rawConfidence t d hpos) (by norm_num)

/-- C10: a catalog template is emitted exactly when one of its declared
triggers occurs in the signal list, and every emitted suggestion has
confidence at least `0.5` — so no emitted confidence lies in `[0.3, 0.5)`. -/
theorem emitted_iff_some_trigger (detected : List String) (n : String)
    (t : WorkflowTemplate) (hmem : (n, t) ∈ workflowTemplates) :
    ((∃ s ∈ matchWorkflows detected, s.name = n) ↔
      ∃ tr ∈ t.triggers.strong ++ t.triggers.medium ++ t.triggers.weak,
        tr ∈ detected) ∧
    ∀ s ∈ matchWorkflows detected, 1/2 ≤ s.confidence := by
  constructor
  · rw [mem_matchWorkflows_iff_threshold detected n t hmem, threshold_iff_pos_match]
    simp only [matchCount_pos_iff, List.mem_append]
    constructor
    · rintro (⟨a, ha, had⟩ | ⟨a, ha, had⟩ | ⟨a, ha, had⟩)
      · exact ⟨a, Or.inl (Or.inl ha), had⟩
      · exact ⟨a, Or.inl (Or.inr ha), had⟩
      · exact ⟨a, Or.inr ha, had⟩
    · rintro ⟨a, (ha | ha) | ha, had⟩
      · exact Or.inl ⟨a, ha, had⟩
      · exact Or.inr (Or.inl ⟨a, ha, had⟩)
      · exact Or.inr (Or.inr ⟨a, ha, had⟩)
  · intro s hs
    have hs' : s ∈ candidateSuggestions detected :=
      (sortByConfidence_perm _).mem_iff.mp hs
    obtain ⟨hsmap, hthr⟩ := List.mem_filter.mp hs'
    obtain ⟨p, hp, hps⟩ := List.mem_map.mp hsmap
    rw [← hps]
    exact half_le_confidence_of_threshold p.1 p.2 detected
      (by rw [hps]; exact of_decide_eq_true hthr)

/-- Witness for C10 at the concrete signal list `["react"]` and the
`component-library` template. -/
theorem emitted_iff_some_trigger_witness :
    ("component-library", componentLibrary) ∈ workflowTemplates ∧
    (((∃ s ∈ matchWorkflows ["react"], s.name = "component-library") ↔
      ∃ tr ∈ componentLibrary.triggers.strong ++ componentLibrary.triggers.medium
          ++ componentLibrary.triggers.weak, tr ∈ ["react"]) ∧
      ∀ s ∈ matchWorkflows ["react"], 1/2 ≤ s.confidence) :=
  ⟨by decide,
    emitted_iff_some_trigger ["react"] "component-library" componentLibrary (by decide)⟩

/-! ## C7: shape of the reasoning string -/

/-- The reasoning string as claim C7 describes it: one clause per tier with
at least one matched trigger, in strong→medium→weak order, each clause
listing the matched triggers of that tier verbatim as declared, the clauses
joined by `" | "`; a fixed generic string when no tier matched. -/
def specReasoning (tr : Triggers) (detected : List String) : String :=
  let strongMatched := tr.strong.filter (fun i => decide (lowerStr i ∈ detected))
  let mediumMatched := tr.medium.filter (fun i => decide (lowerStr i ∈ detected))
  let weakMatched := tr.weak.filter (fun i => decide (lowerStr i ∈ detected))
  let clauses : List String :=
    (if strongMatched.isEmpty then []
      else ["Strong indicators: " ++ String.intercalate ", " strongMatched])
    ++ (if mediumMatched.isEmpty then []
      else ["Supporting indicators: " ++ String.intercalate ", " mediumMatched])
    ++ (if weakMatched.isEmpty then []
      else ["Additional indicators: " ++ String.intercalate ", " weakMatched])
  if clauses.isEmpty then "General recommendation based on project structure"
  else String.intercalate " | " clauses

/-- For a tier of lower-case triggers, the guard used by the code (a
positive verbatim match count) coincides with the matched-trigger list of
the tier being non-empty. -/
theorem matchCount_pos_eq_not_isEmpty (detected : List String)
    (l : List String) (h : ∀ x ∈ l, lowerStr x = x) :
    (0 < matchCount l detected) =
      ¬(l.filter (fun i => decide (lowerStr i ∈ detected))).isEmpty := by
  apply propext
  rw [matchCount_pos_iff]
  constructor
  · rintro ⟨a, ha, had⟩ hemp
    rw [List.isEmpty_iff, List.filter_eq_nil_iff] at hemp
    exact hemp a ha (by simp [h a ha, had])
  · intro hne
    by_contra hno
    push_neg at hno
    apply hne
    rw [List.isEmpty_iff, List.filter_eq_nil_iff]
    intro a ha
    simp [h a ha, hno a ha]

/-- C7: for every catalog template the emitted reasoning has exactly the
claimed shape: the `" | "`-join of one clause per matched tier in
strong→medium→weak order, each listing the matched triggers of that tier
verbatim, and a fixed non-empty generic string when no tier matched. -/
theorem reasoning_eq_spec (detected : List String) (n : String)
    (t : WorkflowTemplate) (hmem : (n, t) ∈ workflowTemplates) :
    (calculateWorkflowConfidence n t detected).reasoning =
        specReasoning t.triggers detected ∧
      "General recommendation based on project structure" ≠ "" := by
  refine ⟨?_, by decide⟩
  have hall := workflowTriggers_lower (n, t) hmem
  have hs := matchCount_pos_eq_not_isEmpty detected t.triggers.strong
    (fun x hx => hall x (by simp [hx]))
  have hm := matchCount_pos_eq_not_isEmpty detected t.triggers.medium
    (fun x hx => hall x (by simp [hx]))
  have hw := matchCount_pos_eq_not_isEmpty detected t.triggers.weak
    (fun x hx => hall x (by simp [hx]))
  have hs2 : ((t.triggers.strong.filter
      (fun i => decide (lowerStr i ∈ detected))).isEmpty = true) =
      ¬(0 < matchCount t.triggers.strong detected) := by rw [hs, not_not]
  have hm2 : ((t.triggers.medium.filter
      (fun i => decide (lowerStr i ∈ detected))).isEmpty = true) =
      ¬(0 < matchCount t.triggers.medium detected) := by rw [hm, not_not]
  have hw2 : ((t.triggers.weak.filter
      (fun i => decide (lowerStr i ∈ detected))).isEmpty = true) =
      ¬(0 < matchCount t.triggers.weak detected) := by rw [hw, not_not]
  show generateReasoning t.triggers detected = specReasoning t.triggers detected
  unfold generateReasoning specReasoning
  simp only [hs2, hm2, hw2]
  by_cases ps : 0 < matchCount t.triggers.strong detected <;>
  by_cases pm : 0 < matchCount t.triggers.medium detected <;>
  by_cases pw : 0 < matchCount t.triggers.weak detected <;>
    simp only [ps, pm, pw, gt_iff_lt, not_true, not_false_iff, if_true, if_false,
      ite_true, ite_false, not_lt_zero']  <;>
    simp

/-- Witness for C7: the `component-library` template on the signal list
`["react"]`. -/
theorem reasoning_eq_spec_witness :
    ("component-library", componentLibrary) ∈ workflowTemplates ∧
    ((calculateWorkflowConfidence "component-library" componentLibrary
        ["react"]).reasoning = specReasoning componentLibrary.triggers ["react"] ∧
      "General recommendation based on project structure" ≠ "") :=
  ⟨by decide,
    reasoning_eq_spec ["react"] "component-library" componentLibrary (by decide)⟩

/-! ## C8 and C9: concrete scoring facts -/

/-- C8: on the example signal set of the spec, the `component-library`
template scores at least `0.9` and its reasoning mentions `"react"`. -/
theorem componentLibrary_react_example :
    9/10 ≤ (calculateWorkflowConfidence "component-library" componentLibrary
      ["react", "express", "jest", "component-based", "api-driven",
        "test-driven", "full-stack"]).confidence ∧
    ∃ p q, (calculateWorkflowConfidence "component-library" componentLibrary
      ["react", "express", "jest", "component-based", "api-driven",
        "test-driven", "full-stack"]).reasoning = p ++ "react" ++ q := by
  constructor
  · rw [confidence_eq]
    have h1 : matchCount componentLibrary.triggers.strong
        ["react", "express", "jest", "component-based", "api-driven",
          "test-driven", "full-stack"] = 1 := by decide
    have h2 : matchCount componentLibrary.triggers.medium
        ["react", "express", "jest", "component-based", "api-driven",
          "test-driven", "full-stack"] = 0 := by decide
    have h3 : matchCount componentLibrary.triggers.weak
        ["react", "express", "jest", "component-based", "api-driven",
          "test-driven", "full-stack"] = 0 := by decide
    unfold rawConfidence
    rw [h1, h2, h3]
    norm_num [strongSignalWeight, mediumSignalWeight, weakSignalWeight]
  · exact ⟨"Strong indicators: ", "", by decide⟩

/-- C9: a trigger string declared in two tiers of a template contributes
both weights to the raw confidence of a single matching signal, in general
(first conjunct) and concretely for the string "optimization" in the
performance-optimization template, where the raw confidence of the
singleton signal set is 0.9 + 0.7 = 1.6, capped to 1, and the trigger
appears once per matching tier in the matched-trigger list. -/
theorem performanceOptimization_shared_trigger :
    (∀ (t : WorkflowTemplate) (sig : String),
      sig ∈ t.triggers.strong → sig ∈ t.triggers.medium →
        9/10 + 7/10 ≤ rawConfidence t [sig]) ∧
    rawConfidence performanceOptimization ["optimization"] = 8/5 ∧
    (calculateWorkflowConfidence "performance-optimization"
      performanceOptimization ["optimization"]).confidence = 1 ∧
    (calculateWorkflowConfidence "performance-optimization"
      performanceOptimization ["optimization"]).triggers =
        ["optimization", "optimization"] := by
  have hgen : ∀ (t : WorkflowTemplate) (sig : String),
      sig ∈ t.triggers.strong → sig ∈ t.triggers.medium →
        9/10 + 7/10 ≤ rawConfidence t [sig] := by
    intro t sig hstr hmed
    have hs : 0 < matchCount t.triggers.strong [sig] :=
      matchCount_pos_iff.mpr ⟨sig, hstr, by simp⟩
    have hm : 0 < matchCount t.triggers.medium [sig] :=
      matchCount_pos_iff.mpr ⟨sig, hmed, by simp⟩
    have hcs : (1 : ℚ) ≤ (matchCount t.triggers.strong [sig] : ℚ) := by exact_mod_cast hs
    have hcm : (1 : ℚ) ≤ (matchCount t.triggers.medium [sig] : ℚ) := by exact_mod_cast hm
    have hcw : (0 : ℚ) ≤ (matchCount t.triggers.weak [sig] : ℚ) := Nat.cast_nonneg _
    unfold rawConfidence strongSignalWeight mediumSignalWeight weakSignalWeight
    nlinarith
  have h1 : matchCount performanceOptimization.triggers.strong ["optimization"] = 1 := by
    decide
  have h2 : matchCount performanceOptimization.triggers.medium ["optimization"] = 1 := by
    decide
  have h3 : matchCount performanceOptimization.triggers.weak ["optimization"] = 0 := by
    decide
  have hraw : rawConfidence performanceOptimization ["optimization"] = 8/5 := by
    unfold rawConfidence
    rw [h1, h2, h3]
    norm_num [strongSignalWeight, mediumSignalWeight, weakSignalWeight]
  refine ⟨hgen, hraw, ?_, by decide⟩
  rw [confidence_eq, hraw]
  rw [min_eq_right (by norm_num)]

/-- Witness for C9: the shared trigger "optimization" of the
performance-optimization template, with both membership hypotheses
discharged concretely. -/
theorem performanceOptimization_shared_trigger_witness :
    ("optimization" ∈ performanceOptimization.triggers.strong ∧
      "optimization" ∈ performanceOptimization.triggers.medium) ∧
    9/10 + 7/10 ≤ rawConfidence performanceOptimization ["optimization"] :=
  ⟨⟨by decide, by decide⟩,
    performanceOptimization_shared_trigger.1 performanceOptimization "optimization"
      (by decide) (by decide)⟩

/-! ## C5: the signal flattener -/

/-- The flattened token list exactly as claim C5 describes it: the name of
each dependency; its category only when the category is known (not
`"unknown"`); every structure label; and the architecture when it is not
`"unknown"`. -/
def claimedDetectedItems (dependencies : List DependencyInfo)
    (patterns : StructurePatterns) : List String :=
  dependencies.map (fun dep => lowerStr dep.name)
  ++ (dependencies.filter (fun dep => decide (dep.category ≠ "unknown"))).map
      (fun dep => lowerStr dep.category)
  ++ (patterns.frameworks ++ patterns.project_types ++ patterns.key_patterns).map lowerStr
  ++ (if patterns.architecture ≠ "unknown" then [lowerStr patterns.architecture] else [])

/-- The flattener output as amended: the category of every dependency
always contributes (including `"unknown"`), and the architecture
contributes when it is non-empty and not `"unknown"`. -/
def amendedDetectedItems (dependencies : List DependencyInfo)
    (patterns : StructurePatterns) : List String :=
  dependencies.map (fun dep => lowerStr dep.name)
  ++ dependencies.map (fun dep => lowerStr dep.category)
  ++ (patterns.frameworks ++ patterns.project_types ++ patterns.key_patterns).map lowerStr
  ++ (if patterns.architecture ≠ "" ∧ patterns.architecture ≠ "unknown" then
        [lowerStr patterns.architecture] else [])

/-- Counterexample to C5 as stated: a dependency with the (default)
category `"unknown"` makes the flattener emit the token `"unknown"`, which
the claimed token set excludes, so the flattener output is not the set the
claim describes. -/
theorem extractDetectedItems_ne_claimed :
    "unknown" ∈ extractDetectedItems
        [{ name := "leftpad", version := none, type := "production",
           category := "unknown" }]
        { architecture := "unknown", frameworks := [], project_types := [],
          key_patterns := [] } ∧
      "unknown" ∉ claimedDetectedItems
        [{ name := "leftpad", version := none, type := "production",
           category := "unknown" }]
        { architecture := "unknown", frameworks := [], project_types := [],
          key_patterns := [] } := by
  decide

/-- C5 as amended: the flattener produces exactly (as a set) the
lower-cased tokens of `amendedDetectedItems`, that is the name and the
category of every dependency (the category even when `"unknown"`), all
structure labels, and the architecture when non-empty and not `"unknown"`;
empty inputs produce the empty list, with no error. -/
theorem extractDetectedItems_amended :
    (∀ (deps : List DependencyInfo) (patterns : StructurePatterns) (x : String),
      x ∈ extractDetectedItems deps patterns ↔ x ∈ amendedDetectedItems deps patterns) ∧
    extractDetectedItems []
      { architecture := "unknown", frameworks := [], project_types := [],
        key_patterns := [] } = [] ∧
    extractDetectedItems []
      { architecture := "", frameworks := [], project_types := [],
        key_patterns := [] } = [] := by
  refine ⟨?_, by decide, by decide⟩
  intro deps patterns x
  unfold extractDetectedItems amendedDetectedItems
  simp only [List.map_append, List.mem_append]
  have harch : (if patterns.architecture ≠ "" ∧ patterns.architecture ≠ "unknown" then
      [patterns.architecture] else ([] : List String)).map lowerStr =
      (if patterns.architecture ≠ "" ∧ patterns.architecture ≠ "unknown" then
        [lowerStr patterns.architecture] else []) := by
    split <;> rfl
  rw [harch]
  have hdep : x ∈ (deps.flatMap
      (fun dep => [lowerStr dep.name, lowerStr dep.category])).map lowerStr ↔
      (x ∈ deps.map (fun dep => lowerStr dep.name) ∨
        x ∈ deps.map (fun dep => lowerStr dep.category)) := by
    simp only [List.mem_map, List.mem_flatMap, List.mem_cons,
      List.mem_singleton]
    constructor
    · rintro ⟨y, ⟨dep, hdep, hy⟩, hx⟩
      rcases hy with hy | hy | hy
      · exact Or.inl ⟨dep, hdep, by rw [← hx, hy, lowerStr_idem]⟩
      · exact Or.inr ⟨dep, hdep, by rw [← hx, hy, lowerStr_idem]⟩
      · cases hy
    · rintro (⟨dep, hdep, hx⟩ | ⟨dep, hdep, hx⟩)
      · exact ⟨lowerStr dep.name, ⟨dep, hdep, Or.inl rfl⟩, by rw [lowerStr_idem, hx]⟩
      · exact ⟨lowerStr dep.category, ⟨dep, hdep, Or.inr (Or.inl rfl)⟩,
          by rw [lowerStr_idem, hx]⟩
  rw [hdep]
  tauto
